import Mathlib

/-!
Shallow embedding of the picaresql core (`src/lib.rs`): the clause
decomposition engine, the insert payload analyzer, and the analysis
aggregator, together with the statements of the specification claims
about them.

The SQL syntax service (the `sqlparser` crate) is an external
collaborator: the core only pattern-matches on the statement / body
variants it needs and otherwise treats AST leaves (expressions, table
factors, joins, identifiers) opaquely, cloning and serializing them.
Those leaves are therefore embedded as atoms carrying their canonical
text, while every node the core inspects or rebuilds (`Query`, `Select`,
`SetExpr`, `TableWithJoins`, `Cte`, `Statement`) is embedded
structurally, with a serializer mirroring the crate's `Display`
implementations (validated below against the exact strings pinned by the
repository's unit tests).

The Rust functions mutate a builder `Select` in place; here they are
state-passing: each takes the builder and returns the updated builder
next to the emitted step texts, in emission order.  The `panic!` in
`get_payload_count_query` is embedded as `Except.error`.
-/

namespace Picaresql

/-- Object name (possibly qualified identifier), `ObjectName(Vec<SQLIdent>)`;
serialized by joining the parts with a dot. -/
structure ObjectName where
  parts : List String

/-- Expressions.  The core constructs exactly one expression shape itself
(`Expr::Function` for `COUNT(*)`, with `Expr::Wildcard` as argument) and
treats every other expression opaquely (clone + serialize), so all other
variants are carried as their canonical text via `raw`. -/
inductive Expr where
  | wildcard : Expr
  | function (name : ObjectName) (args : List Expr) (over : Option String) (distinct : Bool) : Expr
  | raw (text : String) : Expr

/-- Projection items.  The core only ever builds `UnnamedExpr`; other
variants (wildcards, aliased expressions) are opaque canonical text. -/
inductive SelectItem where
  | unnamedExpr : Expr → SelectItem
  | raw (text : String) : SelectItem

/-- Table factor (base relation of a from-item), never inspected by the
core: an atom holding its canonical text. -/
structure TableFactor where
  text : String

/-- One join attached to a from-item, never inspected by the core: an
atom holding its canonical text (without the leading space that the
`Display` impl prints before each join). -/
structure Join where
  text : String

/-- A from-item: base relation plus its ordered joins
(`TableWithJoins { relation, joins }`). -/
structure TableWithJoins where
  relation : TableFactor
  joins : List Join

/-- The body of a `SELECT` (`sqlparser`'s `Select` struct), with fields in
source order. `from` is a Lean keyword, hence `from_`. -/
structure Select where
  distinct : Bool
  projection : List SelectItem
  from_ : List TableWithJoins
  selection : Option Expr
  group_by : List Expr
  having : Option Expr

/-- A query body.  `select` and `values` are the two variants the core
inspects; `other` stands for the remaining recursive variants
(`SetExpr::Query`, `SetExpr::SetOperation`), which the core never enters,
carried as canonical text. -/
inductive SetExpr where
  | select : Select → SetExpr
  | values : List (List Expr) → SetExpr
  | other (text : String) : SetExpr

mutual
/-- A `SELECT`-family query: CTE list, body, and trailing clauses.  The
trailing clauses are never inspected by the core (only dropped when step
queries are rebuilt), so they are atoms: order-by expressions, limit and
offset expressions, and the fetch clause as canonical text. -/
inductive Query where
  | mk (ctes : List Cte) (body : SetExpr) (order_by : List String)
       (limit : Option String) (offset : Option String) (fetch : Option String) : Query
/-- One common table expression: its name and its inner query. -/
inductive Cte where
  | mk (alias_ : String) (query : Query) : Cte
end

def Query.ctes : Query → List Cte
  | Query.mk c _ _ _ _ _ => c

def Query.body : Query → SetExpr
  | Query.mk _ b _ _ _ _ => b

def Cte.alias_ : Cte → String
  | Cte.mk a _ => a

def Cte.query : Cte → Query
  | Cte.mk _ q => q

instance : Inhabited Query := ⟨Query.mk [] (SetExpr.other "") [] none none none⟩

instance : Inhabited Cte := ⟨Cte.mk "" default⟩

/-- A parsed statement, the three-way split the aggregator dispatches on:
`Query`, `Insert { table_name, columns, source }`, and every other
statement kind (opaque canonical text). -/
inductive Statement where
  | query : Query → Statement
  | insert (table_name : ObjectName) (columns : List String) (source : Query) : Statement
  | other (text : String) : Statement

/-! Serialization, mirroring the `Display` implementations of the syntax
service on the node shapes above. -/

def ObjectName.toString (n : ObjectName) : String :=
  String.intercalate "." n.parts

mutual
def Expr.toString : Expr → String
  | Expr.wildcard => "*"
  | Expr.function name args over dist =>
      ObjectName.toString name ++ "(" ++ (if dist then "DISTINCT " else "")
      ++ Expr.listToString args ++ ")"
      ++ (match over with
          | some w => " OVER (" ++ w ++ ")"
          | none => "")
  | Expr.raw s => s
def Expr.listToString : List Expr → String
  | [] => ""
  | [e] => Expr.toString e
  | e :: e2 :: rest => Expr.toString e ++ ", " ++ Expr.listToString (e2 :: rest)
end

def SelectItem.toString : SelectItem → String
  | SelectItem.unnamedExpr e => Expr.toString e
  | SelectItem.raw s => s

def TableWithJoins.toString (t : TableWithJoins) : String :=
  t.relation.text ++ String.join (t.joins.map (fun j => " " ++ j.text))

def Select.toString (s : Select) : String :=
  "SELECT" ++ (if s.distinct then " DISTINCT" else "") ++ " "
  ++ String.intercalate ", " (s.projection.map SelectItem.toString)
  ++ (if s.from_.isEmpty then "" else
        " FROM " ++ String.intercalate ", " (s.from_.map TableWithJoins.toString))
  ++ (match s.selection with
      | some w => " WHERE " ++ Expr.toString w
      | none => "")
  ++ (if s.group_by.isEmpty then "" else
        " GROUP BY " ++ String.intercalate ", " (s.group_by.map Expr.toString))
  ++ (match s.having with
      | some h => " HAVING " ++ Expr.toString h
      | none => "")

def valuesRowToString (row : List Expr) : String :=
  "(" ++ String.intercalate ", " (row.map Expr.toString) ++ ")"

def SetExpr.toString : SetExpr → String
  | SetExpr.select s => Select.toString s
  | SetExpr.values rows => "VALUES " ++ String.intercalate ", " (rows.map valuesRowToString)
  | SetExpr.other s => s

mutual
def Query.toString : Query → String
  | Query.mk ctes body order_by limit offset fetch =>
      (if ctes.isEmpty then "" else "WITH " ++ Cte.listToString ctes ++ " ")
      ++ SetExpr.toString body
      ++ (if order_by.isEmpty then "" else " ORDER BY " ++ String.intercalate ", " order_by)
      ++ (match limit with
          | some l => " LIMIT " ++ l
          | none => "")
      ++ (match offset with
          | some o => " OFFSET " ++ o
          | none => "")
      ++ (match fetch with
          | some f => " " ++ f
          | none => "")
def Cte.toString : Cte → String
  | Cte.mk a q => a ++ " AS (" ++ Query.toString q ++ ")"
def Cte.listToString : List Cte → String
  | [] => ""
  | [c] => Cte.toString c
  | c :: c2 :: rest => Cte.toString c ++ ", " ++ Cte.listToString (c2 :: rest)
end

def Statement.toString : Statement → String
  | Statement.query q => Query.toString q
  | Statement.insert table_name columns source =>
      "INSERT INTO " ++ ObjectName.toString table_name ++ " "
      ++ (if columns.isEmpty then "" else "(" ++ String.intercalate ", " columns ++ ") ")
      ++ Query.toString source
  | Statement.other s => s

/-! The core, translated function by function from `src/lib.rs`. -/

/-- `create_count_star_projection`: the single projection item `COUNT(*)`. -/
def create_count_star_projection : List SelectItem :=
  [SelectItem.unnamedExpr (Expr.function (ObjectName.mk ["COUNT"]) [Expr.wildcard] none false)]

/-- `create_empty_count_star_select`: `COUNT(*)` projection, everything
else empty. -/
def create_empty_count_star_select : Select :=
  { distinct := false
    projection := create_count_star_projection
    from_ := []
    selection := none
    group_by := []
    having := none }

/-- `query_for`: wrap a select body with the given CTE scope and no
trailing clauses. -/
def query_for (select : Select) (ctes : List Cte) : Query :=
  Query.mk ctes (SetExpr.select select) [] none none none

/-- `query_string_for`: serialize the wrapped working query. -/
def query_string_for (select : Select) (ctes : List Cte) : String :=
  Query.toString (query_for select ctes)

/-- Inner loop of `add_from_and_joins`: one join at a time is appended to
the current builder from-item, which is written back into the builder
select at `index`; a step is emitted after each join. -/
def add_join_items (ctes : List Cte) (index : Nat) (joins : List Join)
    (builder_from : TableWithJoins) (builder_select : Select) (acc : List String) :
    Select × TableWithJoins × List String :=
  match joins with
  | [] => (builder_select, builder_from, acc)
  | join :: rest =>
    let bf := { builder_from with joins := builder_from.joins ++ [join] }
    let bs := { builder_select with from_ := builder_select.from_.set index bf }
    add_join_items ctes index rest bf bs (acc ++ [query_string_for bs ctes])

/-- Outer loop of `add_from_and_joins` (`index` is the `enumerate`
counter): each source from-item is pushed without its joins, a step is
emitted, and then its joins are folded in one by one. -/
def add_from_items (ctes : List Cte) (items : List TableWithJoins) (index : Nat)
    (builder_select : Select) (acc : List String) : Select × List String :=
  match items with
  | [] => (builder_select, acc)
  | fromItem :: rest =>
    let builder_from : TableWithJoins := { relation := fromItem.relation, joins := [] }
    let bs1 := { builder_select with from_ := builder_select.from_ ++ [builder_from] }
    let acc1 := acc ++ [query_string_for bs1 ctes]
    let r := add_join_items ctes index fromItem.joins builder_from bs1 acc1
    add_from_items ctes rest (index + 1) r.1 r.2.2

/-- `add_from_and_joins`. -/
def add_from_and_joins (builder_select : Select) (source_select : Select) (ctes : List Cte) :
    Select × List String :=
  add_from_items ctes source_select.from_ 0 builder_select []

/-- `add_selection`: copy the WHERE filter in, if present, and emit one
step. -/
def add_selection (builder_select : Select) (source_select : Select) (ctes : List Cte) :
    Select × List String :=
  match source_select.selection with
  | some selection =>
    let bs := { builder_select with selection := some selection }
    (bs, [query_string_for bs ctes])
  | none => (builder_select, [])

/-- Loop of `add_group_bys`: group-by expressions are appended one at a
time, with one step emitted per addition. -/
def add_group_by_items (ctes : List Cte) (gbs : List Expr)
    (builder_select : Select) (acc : List String) : Select × List String :=
  match gbs with
  | [] => (builder_select, acc)
  | gb :: rest =>
    let bs := { builder_select with group_by := builder_select.group_by ++ [gb] }
    add_group_by_items ctes rest bs (acc ++ [query_string_for bs ctes])

/-- `add_group_bys`. -/
def add_group_bys (builder_select : Select) (source_select : Select) (ctes : List Cte) :
    Select × List String :=
  add_group_by_items ctes source_select.group_by builder_select []

/-- `add_having`: copy the HAVING filter in, if present, and emit one
step. -/
def add_having (builder_select : Select) (source_select : Select) (ctes : List Cte) :
    Select × List String :=
  match source_select.having with
  | some having =>
    let bs := { builder_select with having := some having }
    (bs, [query_string_for bs ctes])
  | none => (builder_select, [])

/-- `clause_steps_for_query`: the main-body pass.  Non-`Select` bodies
contribute no steps. -/
def clause_steps_for_query (query : Query) : List String :=
  match query.body with
  | SetExpr.select select =>
    let r1 := add_from_and_joins create_empty_count_star_select select query.ctes
    let r2 := add_selection r1.1 select query.ctes
    let r3 := add_group_bys r2.1 select query.ctes
    let r4 := add_having r3.1 select query.ctes
    r1.2 ++ r2.2 ++ r3.2 ++ r4.2
  | _ => []

/-- `query_with_ctes`: clone the query, replacing its CTE list. -/
def query_with_ctes (query : Query) (ctes : List Cte) : Query :=
  match query with
  | Query.mk _ body order_by limit offset fetch => Query.mk ctes body order_by limit offset fetch

/-- `ClauseStepsBuilder`: the accumulator of the CTE pass. -/
structure ClauseStepsBuilder where
  ctes : List Cte
  steps : List String

def ClauseStepsBuilder.new : ClauseStepsBuilder :=
  { ctes := [], steps := [] }

/-- `ClauseStepsBuilder::apply`: decompose the CTE's inner query under
the scope of the previously processed CTEs, then add the CTE itself to
the scope. -/
def ClauseStepsBuilder.apply (b : ClauseStepsBuilder) (cte : Cte) : ClauseStepsBuilder :=
  { ctes := b.ctes ++ [cte]
    steps := b.steps ++ clause_steps_for_query (query_with_ctes cte.query b.ctes) }

/-- `get_all_clause_steps`: CTE-pass steps followed by main-body steps. -/
def get_all_clause_steps (query : Query) : List String :=
  let cte_steps := (query.ctes.foldl ClauseStepsBuilder.apply ClauseStepsBuilder.new).steps
  let main_steps := clause_steps_for_query query
  cte_steps ++ main_steps

structure QueryAnalysis where
  query : String
  clause_steps : List String
deriving DecidableEq

/-- `analyze_query`. -/
def analyze_query (query : Query) : QueryAnalysis :=
  { query := Query.toString query
    clause_steps := get_all_clause_steps query }

structure InsertAnalysis where
  insert_statement : String
  target_table_initial_count : String
  payload_count : String
deriving DecidableEq

/-- The one failure condition of the core: an `INSERT` whose source body
is neither a `SELECT` nor a `VALUES` list.  In the Rust original this is
a `panic!` that aborts the whole process; here it is an `Except.error`
propagated out of `analyze`. -/
inductive AnalyzeError where
  | unsupportedInsertSource : AnalyzeError
deriving DecidableEq

/-- `get_values_count_query`: `SELECT <number of row tuples>`. -/
def get_values_count_query (values : List (List Expr)) : String :=
  "SELECT " ++ Nat.repr values.length

/-- `transform_select_projection_to_count`: replace the projection with
`COUNT(*)` and serialize the select body alone. -/
def transform_select_projection_to_count (select : Select) : String :=
  Select.toString { select with projection := create_count_star_projection }

/-- `get_payload_count_query` (the `panic!` becomes `Except.error`). -/
def get_payload_count_query (query : Query) : Except AnalyzeError String :=
  match query.body with
  | SetExpr.select select => Except.ok (transform_select_projection_to_count select)
  | SetExpr.values values => Except.ok (get_values_count_query values)
  | SetExpr.other _ => Except.error AnalyzeError.unsupportedInsertSource

/-- `analyze_insert`. -/
def analyze_insert (table_name : ObjectName) (source : Query) (full_statement : Statement) :
    Except AnalyzeError InsertAnalysis :=
  match get_payload_count_query source with
  | Except.error e => Except.error e
  | Except.ok payload_count =>
    Except.ok
      { insert_statement := Statement.toString full_statement
        target_table_initial_count := "SELECT COUNT(*) FROM " ++ ObjectName.toString table_name
        payload_count := payload_count }

structure Analysis where
  query_analyses : List QueryAnalysis
  insert_analyses : List InsertAnalysis
deriving DecidableEq

def Analysis.new : Analysis :=
  { query_analyses := [], insert_analyses := [] }

/-- `Analysis::apply`: dispatch one statement; other statement kinds are
skipped silently. -/
def Analysis.apply (a : Analysis) (statement : Statement) : Except AnalyzeError Analysis :=
  match statement with
  | Statement.query q =>
    Except.ok { a with query_analyses := a.query_analyses ++ [analyze_query q] }
  | Statement.insert table_name _ source =>
    match analyze_insert table_name source statement with
    | Except.ok ia => Except.ok { a with insert_analyses := a.insert_analyses ++ [ia] }
    | Except.error e => Except.error e
  | Statement.other _ => Except.ok a

def analyze_list (a : Analysis) : List Statement → Except AnalyzeError Analysis
  | [] => Except.ok a
  | s :: rest =>
    match Analysis.apply a s with
    | Except.ok a2 => analyze_list a2 rest
    | Except.error e => Except.error e

/-- `analyze`, over the statement list the external syntax service
produced from the SQL text. -/
def analyze (statements : List Statement) : Except AnalyzeError Analysis :=
  analyze_list Analysis.new statements

/-! Spec-side definitions: declarative descriptions of the outputs, in
the words of the specification claims, used to state and compare. -/

/-- A working select as the spec describes it: projection forced to the
single expression `COUNT(*)`, plus the clause elements added so far. -/
def working_select (fr : List TableWithJoins) (sel : Option Expr) (gb : List Expr)
    (hv : Option Expr) : Select :=
  { distinct := false
    projection := create_count_star_projection
    from_ := fr
    selection := sel
    group_by := gb
    having := hv }

/-- Declarative from/join steps of claim C1: for each from-item in
source order (with `done` the fully added earlier from-items), first one
step with the item's base relation and no joins (`j = 0`), then one
further step per join in source order, cumulative (`j = 1, 2, ...`). -/
def spec_from_steps (ctes : List Cte) (done : List TableWithJoins) :
    List TableWithJoins → List String
  | [] => []
  | item :: rest =>
    ((List.range (item.joins.length + 1)).map fun j =>
      query_string_for
        (working_select (done ++ [⟨item.relation, item.joins.take j⟩]) none [] none) ctes)
    ++ spec_from_steps ctes (done ++ [item]) rest

/-- Declarative WHERE step of claim C1: exactly one step with the source
filter copied in, if present. -/
def spec_where_steps (ctes : List Cte) (s : Select) : List String :=
  match s.selection with
  | some w => [query_string_for (working_select s.from_ (some w) [] none) ctes]
  | none => []

/-- Declarative GROUP BY steps of claim C1: one step per group-by
expression in source order, cumulative (step `k` keeps the first `k + 1`
grouping keys). -/
def spec_group_steps (ctes : List Cte) (s : Select) : List String :=
  (List.range s.group_by.length).map fun k =>
    query_string_for (working_select s.from_ s.selection (s.group_by.take (k + 1)) none) ctes

/-- Declarative HAVING step of claim C1: exactly one final step, if the
source body has a HAVING filter. -/
def spec_having_steps (ctes : List Cte) (s : Select) : List String :=
  match s.having with
  | some h => [query_string_for (working_select s.from_ s.selection s.group_by (some h)) ctes]
  | none => []

/-- The full main-body pass as claim C1 describes it. -/
def spec_main_steps (ctes : List Cte) (s : Select) : List String :=
  spec_from_steps ctes [] s.from_ ++ spec_where_steps ctes s
  ++ spec_group_steps ctes s ++ spec_having_steps ctes s

/-- Recursive form of the CTE pass (claim C2): each CTE is decomposed
under the scope of the previously processed CTEs, which it then joins. -/
def spec_cte_steps (scope : List Cte) : List Cte → List String
  | [] => []
  | c :: rest =>
    clause_steps_for_query (query_with_ctes c.query scope) ++ spec_cte_steps (scope ++ [c]) rest

/-- Payload-count text as claim C4 words it: clone the select body,
replace its projection with `COUNT(*)`, and serialize while preserving
the source query's CTE list.  (For comparison against the code, which
serializes the select body alone.) -/
def claim_payload_count_preserving_ctes (ctes : List Cte) (select : Select) : String :=
  Query.toString
    (Query.mk ctes (SetExpr.select { select with projection := create_count_star_projection })
      [] none none none)

def Statement.asQuery : Statement → Option Query
  | Statement.query q => some q
  | _ => none

def Statement.isInsert : Statement → Bool
  | Statement.insert _ _ _ => true
  | _ => false

def Statement.isOther : Statement → Bool
  | Statement.other _ => true
  | _ => false

/-- The insert analysis a statement contributes when it is an insert that
the payload analyzer accepts. -/
def Statement.asInsertAnalysis : Statement → Option InsertAnalysis
  | Statement.insert t c s => (analyze_insert t s (Statement.insert t c s)).toOption
  | _ => none

def SetExpr.isSelect : SetExpr → Bool
  | SetExpr.select _ => true
  | _ => false

def SetExpr.isValues : SetExpr → Bool
  | SetExpr.values _ => true
  | _ => false

/-! Concrete inputs, mirroring the repository's unit tests, used for the
sanity checks and the witnesses below. -/

/-- `SELECT * FROM table_1 JOIN table_2 ON true`. -/
def demo_inner_select : Select :=
  { distinct := false
    projection := [SelectItem.raw "*"]
    from_ := [⟨⟨"table_1"⟩, [⟨"JOIN table_2 ON true"⟩]⟩]
    selection := none
    group_by := []
    having := none }

def demo_inner_query : Query :=
  Query.mk [] (SetExpr.select demo_inner_select) [] none none none

/-- Body of `SELECT * FROM table_1 JOIN table_2 ON true, table_3
WHERE x = 1 GROUP BY x, y HAVING COUNT(*) > 1`. -/
def demo_select_full : Select :=
  { distinct := false
    projection := [SelectItem.raw "*"]
    from_ := [⟨⟨"table_1"⟩, [⟨"JOIN table_2 ON true"⟩]⟩, ⟨⟨"table_3"⟩, []⟩]
    selection := some (Expr.raw "x = 1")
    group_by := [Expr.raw "x", Expr.raw "y"]
    having := some (Expr.raw "COUNT(*) > 1") }

/-- The full body above under `WITH a AS (...)`, with trailing clauses
attached (which decomposition must drop). -/
def demo_query_full : Query :=
  Query.mk [Cte.mk "a" demo_inner_query] (SetExpr.select demo_select_full)
    ["x"] (some "10") (some "5") none

/-- A select body with no from-items but WHERE, GROUP BY and HAVING. -/
def demo_nofrom_select : Select :=
  { distinct := false
    projection := [SelectItem.raw "*"]
    from_ := []
    selection := some (Expr.raw "x = 1")
    group_by := [Expr.raw "x"]
    having := some (Expr.raw "COUNT(*) > 1") }

def demo_nofrom_query : Query :=
  Query.mk [] (SetExpr.select demo_nofrom_select) [] none none none

/-- A set-operation body used as a top-level query. -/
def demo_union_query : Query :=
  Query.mk [] (SetExpr.other "SELECT * FROM table_1 UNION SELECT * FROM table_2")
    [] none none none

/-- `VALUES (1), (2)` as an insert source. -/
def demo_values_query : Query :=
  Query.mk [] (SetExpr.values [[Expr.raw "1"], [Expr.raw "2"]]) [] none none none

def demo_values_insert : Statement :=
  Statement.insert ⟨["table_1"]⟩ ["a"] demo_values_query

/-- An insert source whose body is neither a select nor a values list. -/
def demo_bad_source : Query :=
  Query.mk [] (SetExpr.other "SELECT 1 UNION SELECT 2") [] none none none

def demo_bad_insert : Statement :=
  Statement.insert ⟨["table_1"]⟩ [] demo_bad_source

/-- An insert source query that declares a CTE around a select body
(`WITH a AS (SELECT * FROM table_1 JOIN table_2 ON true) SELECT * FROM a`). -/
def demo_cte_select : Select :=
  { distinct := false
    projection := [SelectItem.raw "*"]
    from_ := [⟨⟨"a"⟩, []⟩]
    selection := none
    group_by := []
    having := none }

def demo_cte_source : Query :=
  Query.mk [Cte.mk "a" demo_inner_query] (SetExpr.select demo_cte_select) [] none none none

/-- A statement mix: a query, a skipped statement, an insert, a query. -/
def demo_stmts : List Statement :=
  [Statement.query demo_inner_query,
   Statement.other "DROP TABLE table_1",
   demo_values_insert,
   Statement.query demo_query_full]

def demo_analysis : Analysis :=
  (analyze demo_stmts).toOption.getD Analysis.new

def demo_bad_stmts : List Statement :=
  [Statement.query demo_inner_query, demo_bad_insert]

/-- Two rows with different contents from `demo_values_query`. -/
def demo_values_query2 : Query :=
  Query.mk [] (SetExpr.values [[Expr.raw "7"], [Expr.raw "8"]]) [] none none none

/-- `INSERT INTO table_1 SELECT * FROM table_2`. -/
def demo_select_insert : Statement :=
  Statement.insert ⟨["table_1"]⟩ []
    (Query.mk []
      (SetExpr.select
        { distinct := false
          projection := [SelectItem.raw "*"]
          from_ := [⟨⟨"table_2"⟩, []⟩]
          selection := none
          group_by := []
          having := none })
      [] none none none)

/-! Helper lemmas. -/

theorem list_set_append {α : Type} (l : List α) (x y : α) :
    (l ++ [x]).set l.length y = l ++ [y] := by
  induction l with
  | nil => rfl
  | cons a t ih => simp [ih]

theorem range_succ_map_cons {α : Type} (f : Nat → α) (n : Nat) :
    (List.range (n + 1)).map f = f 0 :: (List.range n).map (fun k => f (k + 1)) := by
  simp [List.range_succ_eq_map, List.map_map, Function.comp]

theorem table_with_joins_eta (t : TableWithJoins) :
    (⟨t.relation, t.joins⟩ : TableWithJoins) = t := rfl

theorem working_select_from (fr : List TableWithJoins) (sel : Option Expr) (gb : List Expr)
    (hv : Option Expr) : (working_select fr sel gb hv).from_ = fr := rfl

theorem working_select_group_by (fr : List TableWithJoins) (sel : Option Expr) (gb : List Expr)
    (hv : Option Expr) : (working_select fr sel gb hv).group_by = gb := rfl

theorem working_select_update_from (fr fr2 : List TableWithJoins) (sel : Option Expr)
    (gb : List Expr) (hv : Option Expr) :
    { working_select fr sel gb hv with from_ := fr2 } = working_select fr2 sel gb hv := rfl

theorem working_select_update_selection (fr : List TableWithJoins) (sel sel2 : Option Expr)
    (gb : List Expr) (hv : Option Expr) :
    { working_select fr sel gb hv with selection := sel2 } = working_select fr sel2 gb hv := rfl

theorem working_select_update_group_by (fr : List TableWithJoins) (sel : Option Expr)
    (gb gb2 : List Expr) (hv : Option Expr) :
    { working_select fr sel gb hv with group_by := gb2 } = working_select fr sel gb2 hv := rfl

theorem working_select_update_having (fr : List TableWithJoins) (sel : Option Expr)
    (gb : List Expr) (hv hv2 : Option Expr) :
    { working_select fr sel gb hv with having := hv2 } = working_select fr sel gb hv2 := rfl

theorem create_empty_eq : create_empty_count_star_select = working_select [] none [] none := rfl

theorem add_join_items_spec (ctes : List Cte) (rel : TableFactor) :
    ∀ (joins jd : List Join) (front : List TableWithJoins) (acc : List String),
    add_join_items ctes front.length joins ⟨rel, jd⟩
        (working_select (front ++ [⟨rel, jd⟩]) none [] none) acc
      = (working_select (front ++ [⟨rel, jd ++ joins⟩]) none [] none, ⟨rel, jd ++ joins⟩,
         acc ++ (List.range joins.length).map (fun k =>
           query_string_for
             (working_select (front ++ [⟨rel, jd ++ joins.take (k + 1)⟩]) none [] none) ctes)) := by
  intro joins
  induction joins with
  | nil =>
    intro jd front acc
    simp [add_join_items]
  | cons j rest ih =>
    intro jd front acc
    rw [add_join_items]
    simp only [working_select_from, working_select_update_from, list_set_append]
    rw [ih (jd ++ [j]) front]
    rw [List.length_cons, range_succ_map_cons]
    simp [List.append_assoc]

theorem add_from_items_spec (ctes : List Cte) :
    ∀ (items front : List TableWithJoins) (acc : List String),
    add_from_items ctes items front.length (working_select front none [] none) acc
      = (working_select (front ++ items) none [] none,
         acc ++ spec_from_steps ctes front items) := by
  intro items
  induction items with
  | nil =>
    intro front acc
    simp [add_from_items, spec_from_steps]
  | cons item rest ih =>
    intro front acc
    rw [add_from_items]
    simp only [working_select_from, working_select_update_from]
    rw [add_join_items_spec ctes item.relation item.joins [] front]
    simp only [List.nil_append, table_with_joins_eta]
    rw [show front.length + 1 = (front ++ [item]).length by simp]
    rw [ih (front ++ [item])]
    rw [spec_from_steps]
    rw [range_succ_map_cons]
    simp [List.append_assoc]

theorem add_from_and_joins_spec (ctes : List Cte) (s : Select) :
    add_from_and_joins create_empty_count_star_select s ctes
      = (working_select s.from_ none [] none, spec_from_steps ctes [] s.from_) := by
  have h := add_from_items_spec ctes s.from_ [] []
  simpa [add_from_and_joins, create_empty_eq] using h

theorem add_selection_spec (ctes : List Cte) (s : Select) :
    add_selection (working_select s.from_ none [] none) s ctes
      = (working_select s.from_ s.selection [] none, spec_where_steps ctes s) := by
  cases hsel : s.selection with
  | none => simp [add_selection, spec_where_steps, hsel]
  | some w => simp [add_selection, spec_where_steps, hsel, working_select_update_selection]

theorem add_group_by_items_spec (ctes : List Cte) (fr : List TableWithJoins)
    (sel : Option Expr) :
    ∀ (gbs gb0 : List Expr) (acc : List String),
    add_group_by_items ctes gbs (working_select fr sel gb0 none) acc
      = (working_select fr sel (gb0 ++ gbs) none,
         acc ++ (List.range gbs.length).map (fun k =>
           query_string_for (working_select fr sel (gb0 ++ gbs.take (k + 1)) none) ctes)) := by
  intro gbs
  induction gbs with
  | nil =>
    intro gb0 acc
    simp [add_group_by_items]
  | cons gb rest ih =>
    intro gb0 acc
    rw [add_group_by_items]
    simp only [working_select_group_by, working_select_update_group_by]
    rw [ih (gb0 ++ [gb])]
    rw [List.length_cons, range_succ_map_cons]
    simp [List.append_assoc]

theorem add_group_bys_spec (ctes : List Cte) (s : Select) :
    add_group_bys (working_select s.from_ s.selection [] none) s ctes
      = (working_select s.from_ s.selection s.group_by none, spec_group_steps ctes s) := by
  have h := add_group_by_items_spec ctes s.from_ s.selection s.group_by [] []
  simpa [add_group_bys, spec_group_steps] using h

theorem add_having_spec (ctes : List Cte) (s : Select) :
    add_having (working_select s.from_ s.selection s.group_by none) s ctes
      = (working_select s.from_ s.selection s.group_by s.having, spec_having_steps ctes s) := by
  cases hhav : s.having with
  | none => simp [add_having, spec_having_steps, hhav]
  | some h => simp [add_having, spec_having_steps, hhav, working_select_update_having]

theorem clause_steps_char (ctes : List Cte) (s : Select) (ob : List String)
    (l o f : Option String) :
    clause_steps_for_query (Query.mk ctes (SetExpr.select s) ob l o f)
      = spec_main_steps ctes s := by
  simp [clause_steps_for_query, Query.body, Query.ctes, add_from_and_joins_spec,
    add_selection_spec, add_group_bys_spec, add_having_spec, spec_main_steps]

theorem foldl_builder_apply :
    ∀ (ctel : List Cte) (b : ClauseStepsBuilder),
    ctel.foldl ClauseStepsBuilder.apply b
      = ⟨b.ctes ++ ctel, b.steps ++ spec_cte_steps b.ctes ctel⟩ := by
  intro ctel
  induction ctel with
  | nil =>
    intro b
    cases b
    simp [spec_cte_steps]
  | cons c rest ih =>
    intro b
    simp [List.foldl_cons, ih, ClauseStepsBuilder.apply, spec_cte_steps, List.append_assoc]

theorem spec_cte_steps_flatten :
    ∀ (ctel scope : List Cte),
    spec_cte_steps scope ctel
      = ((List.range ctel.length).map (fun i =>
          clause_steps_for_query
            (query_with_ctes (ctel.getD i default).query (scope ++ ctel.take i)))).flatten := by
  intro ctel
  induction ctel with
  | nil =>
    intro scope
    simp [spec_cte_steps]
  | cons c rest ih =>
    intro scope
    rw [spec_cte_steps, ih (scope ++ [c]), List.length_cons, range_succ_map_cons]
    simp [List.append_assoc]

theorem spec_where_steps_congr (ctes : List Cte) (s s2 : Select)
    (hf : s.from_ = s2.from_) (hs : s.selection = s2.selection) :
    spec_where_steps ctes s = spec_where_steps ctes s2 := by
  unfold spec_where_steps
  rw [hf, hs]

theorem spec_group_steps_congr (ctes : List Cte) (s s2 : Select)
    (hf : s.from_ = s2.from_) (hs : s.selection = s2.selection)
    (hg : s.group_by = s2.group_by) :
    spec_group_steps ctes s = spec_group_steps ctes s2 := by
  unfold spec_group_steps
  rw [hf, hs, hg]

theorem spec_from_steps_append (ctes : List Cte) :
    ∀ (xs ys done : List TableWithJoins),
    spec_from_steps ctes done (xs ++ ys)
      = spec_from_steps ctes done xs ++ spec_from_steps ctes (done ++ xs) ys := by
  intro xs
  induction xs with
  | nil =>
    intro ys done
    simp [spec_from_steps]
  | cons x t ih =>
    intro ys done
    simp [spec_from_steps, ih, List.append_assoc]

theorem map_range_take_split (g : List Expr → String) (gb : List Expr) (k : Nat) :
    ∃ r, (List.range gb.length).map (fun j => g (gb.take (j + 1)))
      = (List.range (gb.take k).length).map (fun j => g ((gb.take k).take (j + 1))) ++ r := by
  refine ⟨(List.range (gb.length - min k gb.length)).map
    (fun j => g (gb.take (min k gb.length + j + 1))), ?_⟩
  have hm : min k gb.length ≤ gb.length := Nat.min_le_right k gb.length
  have hlen : gb.length = min k gb.length + (gb.length - min k gb.length) :=
    (Nat.add_sub_cancel' hm).symm
  rw [List.length_take]
  conv_lhs => rw [hlen]
  rw [List.range_add, List.map_append, List.map_map]
  congr 1
  apply List.map_congr_left
  intro j hj
  rw [List.mem_range] at hj
  rw [List.take_take]
  have : min (j + 1) k = j + 1 := by omega
  rw [this]

theorem analyze_list_ok :
    ∀ (stmts : List Statement) (a0 a : Analysis), analyze_list a0 stmts = Except.ok a →
      a.query_analyses
          = a0.query_analyses ++ (stmts.filterMap Statement.asQuery).map analyze_query
      ∧ a.insert_analyses
          = a0.insert_analyses ++ stmts.filterMap Statement.asInsertAnalysis
      ∧ a.insert_analyses.length
          = a0.insert_analyses.length + stmts.countP Statement.isInsert := by
  intro stmts
  induction stmts with
  | nil =>
    intro a0 a h
    rw [analyze_list] at h
    cases h
    simp
  | cons st rest ih =>
    intro a0 a h
    rw [analyze_list] at h
    cases st with
    | query q =>
      simp only [Analysis.apply] at h
      obtain ⟨h1, h2, h3⟩ := ih _ a h
      refine ⟨?_, ?_, ?_⟩
      · rw [h1]; simp [Statement.asQuery, List.append_assoc]
      · rw [h2]; simp [Statement.asInsertAnalysis]
      · rw [h3]; simp [Statement.isInsert, List.countP_cons]
    | insert t c src =>
      simp only [Analysis.apply] at h
      cases hia : analyze_insert t src (Statement.insert t c src) with
      | error e =>
        rw [hia] at h
        simp at h
      | ok ia =>
        rw [hia] at h
        simp only [] at h
        obtain ⟨h1, h2, h3⟩ := ih _ a h
        refine ⟨?_, ?_, ?_⟩
        · rw [h1]; simp [Statement.asQuery]
        · rw [h2]
          simp [Statement.asInsertAnalysis, hia, Except.toOption, List.append_assoc]
        · rw [h3]; simp [Statement.isInsert, List.countP_cons]; omega
    | other txt =>
      simp only [Analysis.apply] at h
      obtain ⟨h1, h2, h3⟩ := ih _ a h
      refine ⟨?_, ?_, ?_⟩
      · rw [h1]; simp [Statement.asQuery]
      · rw [h2]; simp [Statement.asInsertAnalysis]
      · rw [h3]; simp [Statement.isInsert, List.countP_cons]

theorem analyze_list_other :
    ∀ (stmts : List Statement) (a0 : Analysis),
    (∀ st ∈ stmts, Statement.isOther st = true) → analyze_list a0 stmts = Except.ok a0 := by
  intro stmts
  induction stmts with
  | nil => intro a0 _; rfl
  | cons st rest ih =>
    intro a0 hall
    have hst := hall st (List.mem_cons_self st rest)
    cases st with
    | query q => simp [Statement.isOther] at hst
    | insert t c src => simp [Statement.isOther] at hst
    | other txt =>
      rw [analyze_list]
      simp only [Analysis.apply]
      exact ih a0 (fun s hs => hall s (List.mem_cons_of_mem _ hs))

theorem analyze_list_err :
    ∀ (stmts : List Statement) (a0 : Analysis) (t : ObjectName) (c : List String) (src : Query),
    Statement.insert t c src ∈ stmts → src.body.isSelect = false → src.body.isValues = false →
    analyze_list a0 stmts = Except.error AnalyzeError.unsupportedInsertSource := by
  intro stmts
  induction stmts with
  | nil =>
    intro a0 t c src hmem _ _
    simp at hmem
  | cons st rest ih =>
    intro a0 t c src hmem h1 h2
    rw [analyze_list]
    rcases List.mem_cons.mp hmem with heq | hmem2
    · subst heq
      cases hb : src.body with
      | select s => rw [hb] at h1; simp [SetExpr.isSelect] at h1
      | values v => rw [hb] at h2; simp [SetExpr.isValues] at h2
      | other txt =>
        simp [Analysis.apply, analyze_insert, get_payload_count_query, hb]
    · cases hap : Analysis.apply a0 st with
      | ok a2 => exact ih a2 t c src hmem2 h1 h2
      | error e => cases e; rfl

/-! Sanity checks: the embedding reproduces the exact step and count
texts pinned by the repository's unit tests. -/

theorem sanity_query_text :
    Query.toString demo_inner_query = "SELECT * FROM table_1 JOIN table_2 ON true" := rfl

theorem sanity_join_steps :
    get_all_clause_steps demo_inner_query
      = ["SELECT COUNT(*) FROM table_1",
         "SELECT COUNT(*) FROM table_1 JOIN table_2 ON true"] := rfl

theorem sanity_cte_steps :
    get_all_clause_steps demo_cte_source
      = ["SELECT COUNT(*) FROM table_1",
         "SELECT COUNT(*) FROM table_1 JOIN table_2 ON true",
         "WITH a AS (SELECT * FROM table_1 JOIN table_2 ON true) SELECT COUNT(*) FROM a"] := rfl

theorem sanity_insert_values :
    analyze [demo_values_insert]
      = Except.ok
          { query_analyses := []
            insert_analyses :=
              [{ insert_statement := "INSERT INTO table_1 (a) VALUES (1), (2)"
                 target_table_initial_count := "SELECT COUNT(*) FROM table_1"
                 payload_count := "SELECT 2" }] } := rfl

theorem sanity_insert_select :
    analyze [demo_select_insert]
      = Except.ok
          { query_analyses := []
            insert_analyses :=
              [{ insert_statement := "INSERT INTO table_1 SELECT * FROM table_2"
                 target_table_initial_count := "SELECT COUNT(*) FROM table_1"
                 payload_count := "SELECT COUNT(*) FROM table_2" }] } := rfl

/-! The claims. -/

/-- C1: for every query whose body is a `SelectBody`, the main-body pass
emits exactly the steps of `spec_main_steps`, in order: for each
from-item in source order, one step with its base relation and no joins,
then one further step per join in source order; then one step with the
WHERE filter copied in, if present; then one cumulative step per
group-by expression in source order; then one final HAVING step, if
present.  Every step serializes a working select whose projection is the
single expression `COUNT(*)`, wrapped (by `query_string_for`) with the
current CTE scope and with no order-by, limit, offset, or fetch
clause. -/
theorem claim_C1_main_body_steps (q : Query) (s : Select) (h : q.body = SetExpr.select s) :
    clause_steps_for_query q = spec_main_steps q.ctes s := by
  cases q with
  | mk ctes body ob l o f =>
    simp only [Query.body] at h
    subst h
    exact clause_steps_char ctes s ob l o f

theorem claim_C1_witness :
    clause_steps_for_query demo_query_full
      = spec_main_steps demo_query_full.ctes demo_select_full :=
  claim_C1_main_body_steps demo_query_full demo_select_full rfl

/-- C2: `get_all_clause_steps` processes the CTE list in declaration
order; the i-th CTE's inner query is decomposed under a scope containing
exactly the CTEs before it (`take i`, so its own name is unavailable to
its own decomposition), each CTE's steps are appended before the next
CTE's, and all CTE-pass steps precede the main-body-pass steps. -/
theorem claim_C2_cte_scoping (q : Query) :
    get_all_clause_steps q
      = ((List.range q.ctes.length).map (fun i =>
          clause_steps_for_query
            (query_with_ctes (q.ctes.getD i default).query (q.ctes.take i)))).flatten
        ++ clause_steps_for_query q := by
  rw [get_all_clause_steps]
  rw [foldl_builder_apply q.ctes ClauseStepsBuilder.new]
  simp [ClauseStepsBuilder.new, spec_cte_steps_flatten]

/-- C3: whenever `analyze` succeeds, the analysis holds one
`QueryAnalysis` per `Query` statement in source order, one
`InsertAnalysis` per `Insert` statement in source order (their count
equals the number of insert statements), and statements of any other
kind contribute no entry; moreover a statement list consisting only of
other-kind statements analyzes without error to the empty analysis. -/
theorem claim_C3_aggregation :
    (∀ (stmts : List Statement) (a : Analysis), analyze stmts = Except.ok a →
       a.query_analyses = (stmts.filterMap Statement.asQuery).map analyze_query
       ∧ a.insert_analyses = stmts.filterMap Statement.asInsertAnalysis
       ∧ a.insert_analyses.length = stmts.countP Statement.isInsert)
    ∧ (∀ stmts : List Statement, (∀ st ∈ stmts, Statement.isOther st = true) →
       analyze stmts = Except.ok Analysis.new) := by
  constructor
  · intro stmts a h
    have h2 := analyze_list_ok stmts Analysis.new a h
    simpa [Analysis.new] using h2
  · intro stmts hall
    exact analyze_list_other stmts Analysis.new hall

theorem claim_C3_witness :
    (demo_analysis.query_analyses
        = (demo_stmts.filterMap Statement.asQuery).map analyze_query
      ∧ demo_analysis.insert_analyses = demo_stmts.filterMap Statement.asInsertAnalysis
      ∧ demo_analysis.insert_analyses.length = demo_stmts.countP Statement.isInsert)
    ∧ analyze [Statement.other "DROP TABLE table_1"] = Except.ok Analysis.new :=
  ⟨claim_C3_aggregation.1 demo_stmts demo_analysis rfl,
   claim_C3_aggregation.2 [Statement.other "DROP TABLE table_1"] (by
     intro st hst
     rw [List.mem_singleton] at hst
     subst hst
     rfl)⟩

/-- C4, counterexample: for an insert source query that declares a CTE
(`WITH a AS (SELECT * FROM table_1 JOIN table_2 ON true) SELECT * FROM a`),
the code's payload count is the serialization of the select body alone,
`SELECT COUNT(*) FROM a`, not the CTE-preserving serialization the claim
describes — the source query's CTE list is dropped. -/
theorem claim_C4_counterexample :
    get_payload_count_query demo_cte_source = Except.ok "SELECT COUNT(*) FROM a"
    ∧ claim_payload_count_preserving_ctes demo_cte_source.ctes demo_cte_select
        = "WITH a AS (SELECT * FROM table_1 JOIN table_2 ON true) SELECT COUNT(*) FROM a"
    ∧ get_payload_count_query demo_cte_source
        ≠ Except.ok (claim_payload_count_preserving_ctes demo_cte_source.ctes demo_cte_select) := by
  refine ⟨rfl, rfl, fun h => ?_⟩
  have h2 : ("SELECT COUNT(*) FROM a" : String)
      = claim_payload_count_preserving_ctes demo_cte_source.ctes demo_cte_select :=
    Except.ok.inj ((rfl :
      get_payload_count_query demo_cte_source
        = Except.ok "SELECT COUNT(*) FROM a").symm.trans h)
  exact absurd h2 (by decide)

/-- C4, amended: for every insert source query whose body is a
`SelectBody`, the payload count is the serialization of the body alone
with its projection replaced by `COUNT(*)` — FROM, WHERE, GROUP BY and
HAVING are preserved exactly as given, but the source query's CTE list
(and its trailing clauses) do not appear, and there is no decomposition
into steps. -/
theorem claim_C4_amended_payload (ctes : List Cte) (s : Select) (ob : List String)
    (l o f : Option String) :
    get_payload_count_query (Query.mk ctes (SetExpr.select s) ob l o f)
      = Except.ok (Select.toString { s with projection := create_count_star_projection }) := rfl

/-- C5: an insert source whose body is neither a select nor a values
list makes the payload analyzer fail with the `unsupportedInsertSource`
condition, and that failure aborts the whole analysis: `analyze` of any
statement list containing such an insert produces the error and no
`Analysis` (the embedding of the original `panic!`). -/
theorem claim_C5_unsupported_insert :
    (∀ q : Query, q.body.isSelect = false → q.body.isValues = false →
       get_payload_count_query q = Except.error AnalyzeError.unsupportedInsertSource)
    ∧ (∀ (stmts : List Statement) (t : ObjectName) (c : List String) (src : Query),
       Statement.insert t c src ∈ stmts → src.body.isSelect = false →
       src.body.isValues = false →
       analyze stmts = Except.error AnalyzeError.unsupportedInsertSource) := by
  constructor
  · intro q h1 h2
    cases hb : q.body with
    | select s => rw [hb] at h1; simp [SetExpr.isSelect] at h1
    | values v => rw [hb] at h2; simp [SetExpr.isValues] at h2
    | other txt => simp [get_payload_count_query, hb]
  · intro stmts t c src hmem h1 h2
    exact analyze_list_err stmts Analysis.new t c src hmem h1 h2

theorem claim_C5_witness :
    get_payload_count_query demo_bad_source
        = Except.error AnalyzeError.unsupportedInsertSource
    ∧ analyze demo_bad_stmts = Except.error AnalyzeError.unsupportedInsertSource :=
  ⟨claim_C5_unsupported_insert.1 demo_bad_source rfl rfl,
   claim_C5_unsupported_insert.2 demo_bad_stmts ⟨["table_1"]⟩ [] demo_bad_source
     (List.mem_cons_of_mem _ (List.mem_cons_self _ _)) rfl rfl⟩

/-- C6: a query whose body is not a `SelectBody` (a set operation, a
nested query, or a bare values list) contributes no main-body steps. -/
theorem claim_C6_non_select_body (q : Query) (h : q.body.isSelect = false) :
    clause_steps_for_query q = [] := by
  cases hb : q.body with
  | select s => rw [hb] at h; simp [SetExpr.isSelect] at h
  | values v => simp [clause_steps_for_query, hb]
  | other txt => simp [clause_steps_for_query, hb]

theorem claim_C6_witness :
    clause_steps_for_query demo_union_query = []
    ∧ clause_steps_for_query demo_values_query = [] :=
  ⟨claim_C6_non_select_body demo_union_query rfl,
   claim_C6_non_select_body demo_values_query rfl⟩

/-- C7: for an insert source whose body is a literal values row list
with `N` row tuples, the payload count is the literal text `SELECT N`,
computed from the number of tuples alone; two row lists of equal length
produce the same payload count whatever their contents. -/
theorem claim_C7_values_count :
    (∀ (q : Query) (rows : List (List Expr)), q.body = SetExpr.values rows →
       get_payload_count_query q = Except.ok ("SELECT " ++ Nat.repr rows.length))
    ∧ (∀ (q q2 : Query) (rows rows2 : List (List Expr)),
       q.body = SetExpr.values rows → q2.body = SetExpr.values rows2 →
       rows.length = rows2.length →
       get_payload_count_query q = get_payload_count_query q2) := by
  constructor
  · intro q rows h
    simp [get_payload_count_query, h, get_values_count_query]
  · intro q q2 rows rows2 h h2 hlen
    simp [get_payload_count_query, h, h2, get_values_count_query, hlen]

theorem claim_C7_witness :
    get_payload_count_query demo_values_query = Except.ok "SELECT 2"
    ∧ get_payload_count_query demo_values_query = get_payload_count_query demo_values_query2 :=
  ⟨claim_C7_values_count.1 demo_values_query [[Expr.raw "1"], [Expr.raw "2"]] rfl,
   claim_C7_values_count.2 demo_values_query demo_values_query2
     [[Expr.raw "1"], [Expr.raw "2"]] [[Expr.raw "7"], [Expr.raw "8"]] rfl rfl rfl⟩

/-- C10: for an insert source query with a select body, the trailing
clauses attached to the query (order-by, limit, offset, fetch) have no
influence on the payload-count text: only the select body is
serialized. -/
theorem claim_C10_trailing_clauses_dropped (ctes : List Cte) (s : Select)
    (ob ob2 : List String) (l o f l2 o2 f2 : Option String) :
    get_payload_count_query (Query.mk ctes (SetExpr.select s) ob l o f)
      = get_payload_count_query (Query.mk ctes (SetExpr.select s) ob2 l2 o2 f2) := rfl

/-- C8: a select body with an empty from-item list yields zero from/join
steps, but the WHERE step, the cumulative GROUP BY steps and the HAVING
step are still produced when those clauses are present, each serialized
against an empty FROM. -/
theorem claim_C8_empty_from (q : Query) (s : Select) (h : q.body = SetExpr.select s)
    (hf : s.from_ = []) :
    clause_steps_for_query q
      = (match s.selection with
         | some w => [query_string_for (working_select [] (some w) [] none) q.ctes]
         | none => [])
        ++ ((List.range s.group_by.length).map (fun k =>
            query_string_for (working_select [] s.selection (s.group_by.take (k + 1)) none)
              q.ctes))
        ++ (match s.having with
            | some hv => [query_string_for (working_select [] s.selection s.group_by (some hv))
                q.ctes]
            | none => []) := by
  cases q with
  | mk ctes body ob l o f =>
    simp only [Query.body] at h
    subst h
    rw [clause_steps_char]
    simp only [Query.ctes]
    rw [spec_main_steps]
    simp [spec_from_steps, spec_where_steps, spec_group_steps, spec_having_steps, hf]

theorem claim_C8_witness :
    clause_steps_for_query demo_nofrom_query
      = (match demo_nofrom_select.selection with
         | some w => [query_string_for (working_select [] (some w) [] none)
             demo_nofrom_query.ctes]
         | none => [])
        ++ ((List.range demo_nofrom_select.group_by.length).map (fun k =>
            query_string_for
              (working_select [] demo_nofrom_select.selection
                (demo_nofrom_select.group_by.take (k + 1)) none)
              demo_nofrom_query.ctes))
        ++ (match demo_nofrom_select.having with
            | some hv => [query_string_for
                (working_select [] demo_nofrom_select.selection demo_nofrom_select.group_by
                  (some hv))
                demo_nofrom_query.ctes]
            | none => []) :=
  claim_C8_empty_from demo_nofrom_query demo_nofrom_select rfl rfl

/-- C9: decomposition is pure state passing — the source select is never
changed (the recorded original text is the serialization of the
unmodified input), and every emitted step text is a stable snapshot: the
steps produced before a later clause element is added form a prefix of
the steps produced with it, for the HAVING filter, the GROUP BY list as
a whole, each group-by key (`take k`), the WHERE filter, and each
from-item (`take k`). -/
theorem claim_C9_step_stability (ctes : List Cte) (s : Select) (ob : List String)
    (l o f : Option String) :
    ((analyze_query (Query.mk ctes (SetExpr.select s) ob l o f)).query
        = Query.toString (Query.mk ctes (SetExpr.select s) ob l o f))
    ∧ (∃ r, clause_steps_for_query (Query.mk ctes (SetExpr.select s) ob l o f)
          = clause_steps_for_query
              (Query.mk ctes (SetExpr.select { s with having := none }) ob l o f) ++ r)
    ∧ (∃ r, clause_steps_for_query
              (Query.mk ctes (SetExpr.select { s with having := none }) ob l o f)
          = clause_steps_for_query
              (Query.mk ctes (SetExpr.select { s with group_by := [], having := none })
                ob l o f) ++ r)
    ∧ (∃ r, clause_steps_for_query
              (Query.mk ctes (SetExpr.select { s with group_by := [], having := none })
                ob l o f)
          = clause_steps_for_query
              (Query.mk ctes
                (SetExpr.select { s with selection := none, group_by := [], having := none })
                ob l o f) ++ r)
    ∧ (∀ k, ∃ r, clause_steps_for_query
              (Query.mk ctes (SetExpr.select { s with having := none }) ob l o f)
          = clause_steps_for_query
              (Query.mk ctes
                (SetExpr.select { s with group_by := s.group_by.take k, having := none })
                ob l o f) ++ r)
    ∧ (∀ k, ∃ r, clause_steps_for_query
              (Query.mk ctes
                (SetExpr.select { s with selection := none, group_by := [], having := none })
                ob l o f)
          = clause_steps_for_query
              (Query.mk ctes
                (SetExpr.select
                  { s with
                      from_ := s.from_.take k, selection := none, group_by := [], having := none })
                ob l o f) ++ r) := by
  refine ⟨rfl, ?_, ?_, ?_, ?_, ?_⟩
  · refine ⟨spec_having_steps ctes s, ?_⟩
    rw [clause_steps_char, clause_steps_char]
    simp [spec_main_steps, spec_where_steps, spec_group_steps, spec_having_steps,
      List.append_assoc]
  · refine ⟨spec_group_steps ctes s, ?_⟩
    rw [clause_steps_char, clause_steps_char]
    simp [spec_main_steps, spec_where_steps, spec_group_steps, spec_having_steps,
      List.append_assoc]
  · refine ⟨spec_where_steps ctes s, ?_⟩
    rw [clause_steps_char, clause_steps_char]
    simp [spec_main_steps, spec_where_steps, spec_group_steps, spec_having_steps,
      List.append_assoc]
  · intro k
    obtain ⟨r0, heq⟩ := map_range_take_split
      (fun gb2 => query_string_for (working_select s.from_ s.selection gb2 none) ctes)
      s.group_by k
    refine ⟨r0, ?_⟩
    rw [clause_steps_char, clause_steps_char]
    simp only [spec_main_steps, spec_where_steps, spec_group_steps, spec_having_steps]
    simp [heq, List.append_assoc]
  · intro k
    refine ⟨spec_from_steps ctes (s.from_.take k) (s.from_.drop k), ?_⟩
    rw [clause_steps_char, clause_steps_char]
    simp only [spec_main_steps, spec_where_steps, spec_group_steps, spec_having_steps]
    conv_lhs => rw [show s.from_ = s.from_.take k ++ s.from_.drop k from
      (List.take_append_drop k s.from_).symm]
    rw [spec_from_steps_append]
    simp [List.append_assoc]

end Picaresql
